import Mathlib

/-!
Shallow embedding of the `datagen-skill` repository's Python sources
(`src/testdatagen/python/`). Floating-point numbers are idealised as
rationals. Calls into the external numerical libraries (scipy / numpy
routines whose algorithms are not part of this repository) are modelled
by an explicit oracle record `Scipy`; the process-wide pseudorandom
generator is modelled by explicit state passing over an abstract state
type, via the record `Rng`.
-/

namespace Datagen

/-- Oracle for the external library calls made by the test runners:
`stats.chi2.sf` (the p-value of a chi-squared statistic at given degrees
of freedom), `stats.kstest` (statistic and p-value, given data, the
scipy distribution name and its positional args), `stats.anderson`
(statistic and the list of critical values), `stats.shapiro` (statistic
and p-value) and `np.std` (population standard deviation). -/
structure Scipy where
  chi2sf : ℚ → Int → ℚ
  kstest : List ℚ → String → List ℚ → ℚ × ℚ
  anderson : List ℚ → String → ℚ × List ℚ
  shapiro : List ℚ → ℚ × ℚ
  npStd : List ℚ → ℚ

/-- Model of `np.mean`: sum divided by length. -/
def npMean (xs : List ℚ) : ℚ := xs.sum / xs.length

/-- Model of `np.min` on a nonempty array (the sole use site guards
`len(data) ≥ 2`); the empty case is given a junk value. -/
def listMin : List ℚ → ℚ
  | [] => 0
  | x :: xs => xs.foldl min x

/-- Model of `np.max` on a nonempty array; empty case is junk. -/
def listMax : List ℚ → ℚ
  | [] => 0
  | x :: xs => xs.foldl max x

/-- Model of `scipy.stats.chisquare`: statistic `Σ (O−E)² / E` over the
zipped pair of sequences, p-value from the chi-squared survival function
at `len(observed) − 1` degrees of freedom. -/
def chisquare (sc : Scipy) (observed expected : List ℚ) : ℚ × ℚ :=
  let stat := ((observed.zip expected).map (fun p => (p.1 - p.2) ^ 2 / p.2)).sum
  (stat, sc.chi2sf stat ((observed.length : Int) - 1))

/-- Result dictionary of `chi_squared_test` in `statistical_tests.py`:
either a success record (`success: True`) carrying statistic, p-value,
significance flag and degrees of freedom, or an error record
(`success: False`) carrying the message. -/
inductive ChiResult where
  | ok (statistic p_value : ℚ) (significant : Bool) (dof : Int)
  | err (msg : String)
deriving DecidableEq

/-- Result dictionary of `ks_test` in `statistical_tests.py`. -/
inductive KSResult where
  | ok (distribution : String) (statistic p_value : ℚ) (significant : Bool)
      (sample_size : ℕ)
  | err (msg : String)
deriving DecidableEq

/-- Result dictionary of `anderson_darling_test` in
`statistical_tests.py`. -/
inductive ADResult where
  | ok (distribution : String) (statistic : ℚ) (critical_values : List ℚ)
      (rejected_at : Option ℚ) (significant : Bool) (sample_size : ℕ)
  | err (msg : String)
deriving DecidableEq

/-- Result dictionary of `shapiro_wilk_test` in `statistical_tests.py`. -/
inductive SWResult where
  | ok (statistic p_value : ℚ) (significant : Bool) (sample_size : ℕ)
  | err (msg : String)
deriving DecidableEq

/-- Result dictionary of `uniformity_test` in `statistical_tests.py`:
a success record embeds both sub-results and the `is_uniform` flag. -/
inductive UniformityResult where
  | ok (ks : KSResult) (chi2 : ChiResult) (is_uniform : Bool)
  | err (msg : String)
deriving DecidableEq

namespace StatisticalTests

/-- `chi_squared_test` of `statistical_tests.py`: validates equal
lengths, then that no expected entry is `≤ 0`, then delegates to
`stats.chisquare`; `significant` is `p_value < 0.05`. -/
def chi_squared_test (sc : Scipy) (observed expected : List ℚ) : ChiResult :=
  if observed.length ≠ expected.length then
    .err "Observed and expected frequencies must have same length"
  else if expected.any (fun e => decide (e ≤ 0)) then
    .err "Expected frequencies must be positive"
  else
    let r := chisquare sc observed expected
    .ok r.1 r.2 (decide (r.2 < 1/20)) ((observed.length : Int) - 1)

/-- Optional distribution parameters accepted by `ks_test` of
`statistical_tests.py` (`mean`, `std`, `loc`, `scale`). -/
structure KsParams where
  mean : Option ℚ := none
  std : Option ℚ := none
  loc : Option ℚ := none
  scale : Option ℚ := none
deriving DecidableEq

/-- `ks_test` of `statistical_tests.py`: requires at least two data
values; for `norm` uses `params` mean/std (defaults 0/1) or estimates
sample mean and `np.std`; for `uniform` uses `loc`/`scale` (defaults
0/1) or sample min and max−min; for `expon` uses scale (default 1) or
the sample mean with location 0; any other name is a validation error. -/
def ks_test (sc : Scipy) (data : List ℚ) (distribution : String)
    (params : Option KsParams) : KSResult :=
  if data.length < 2 then
    .err "Data must have at least 2 values"
  else if distribution = "norm" then
    let mean := match params with
      | some p => p.mean.getD 0
      | none => npMean data
    let std := match params with
      | some p => p.std.getD 1
      | none => sc.npStd data
    let r := sc.kstest data "norm" [mean, std]
    .ok "norm" r.1 r.2 (decide (r.2 < 1/20)) data.length
  else if distribution = "uniform" then
    let loc := match params with
      | some p => p.loc.getD 0
      | none => listMin data
    let scale := match params with
      | some p => p.scale.getD 1
      | none => listMax data - listMin data
    let r := sc.kstest data "uniform" [loc, scale]
    .ok "uniform" r.1 r.2 (decide (r.2 < 1/20)) data.length
  else if distribution = "expon" then
    let scale := match params with
      | some p => p.scale.getD 1
      | none => npMean data
    let r := sc.kstest data "expon" [0, scale]
    .ok "expon" r.1 r.2 (decide (r.2 < 1/20)) data.length
  else
    .err ("Unsupported distribution: " ++ distribution)

/-- The hardcoded significance-level ladder of `anderson_darling_test`
(`[15, 10, 5, 2.5, 1]`, most lenient first). -/
def significance_levels : List ℚ := [15, 10, 5, 5/2, 1]

/-- The scan of `anderson_darling_test` over the critical values: for
each critical value in order, if the statistic exceeds it, record the
corresponding significance level and continue; otherwise stop, keeping
the last recorded level (`None` if the first is not exceeded). -/
def adScan (stat : ℚ) : List ℚ → List ℚ → Option ℚ → Option ℚ
  | [], _, acc => acc
  | _ :: _, [], acc => acc
  | cv :: cvs, l :: ls, acc =>
      if cv < stat then adScan stat cvs ls (some l) else acc

/-- `anderson_darling_test` of `statistical_tests.py`: requires at least
two data values, delegates to `stats.anderson`, scans the critical
values for the strictest rejected level, and sets `significant` to
whether `rejected_at` is not `None`. -/
def anderson_darling_test (sc : Scipy) (data : List ℚ)
    (distribution : String) : ADResult :=
  if data.length < 2 then
    .err "Data must have at least 2 values"
  else
    let r := sc.anderson data distribution
    let rej := adScan r.1 r.2 significance_levels none
    .ok distribution r.1 r.2 rej rej.isSome data.length

/-- `shapiro_wilk_test` of `statistical_tests.py`: requires
`3 ≤ len(data) ≤ 5000`, then delegates to `stats.shapiro`. -/
def shapiro_wilk_test (sc : Scipy) (data : List ℚ) : SWResult :=
  if data.length < 3 then
    .err "Data must have at least 3 values"
  else if data.length > 5000 then
    .err "Shapiro-Wilk test limited to 5000 samples"
  else
    let r := sc.shapiro data
    .ok r.1 r.2 (decide (r.2 < 1/20)) data.length

end StatisticalTests

/-- Count of data points falling in bin `i` of `k` equal-width bins
between `lo` and `hi`, with numpy's convention that every bin is
half-open except the last, which is closed. -/
def binCount (lo hi : ℚ) (k : ℕ) (data : List ℚ) (i : ℕ) : ℕ :=
  (data.filter (fun x =>
    let e1 := lo + (hi - lo) * i / k
    let e2 := lo + (hi - lo) * (i + 1) / k
    if i + 1 = k then decide (e1 ≤ x) && decide (x ≤ e2)
    else decide (e1 ≤ x) && decide (x < e2))).length

/-- Model of `np.histogram(data, bins=k)` (counts only) for `k ≥ 1` and
nonempty data: `k` equal-width bins spanning `[min, max]`, widened to
`[min − 0.5, max + 0.5]` when all values coincide. -/
def npHistogram (data : List ℚ) (k : ℕ) : List ℕ :=
  let lo0 := listMin data
  let hi0 := listMax data
  let lo := if lo0 = hi0 then lo0 - 1/2 else lo0
  let hi := if lo0 = hi0 then hi0 + 1/2 else hi0
  (List.range k).map (binCount lo hi k data)

/-- The value of `result.get('p_value', 0)` in `uniformity_test` for a
KS sub-result: the p-value of a success record, else the default `0`. -/
def KSResult.pvalueD : KSResult → ℚ
  | .ok _ _ p _ _ => p
  | .err _ => 0

/-- The value of `result.get('p_value', 0)` in `uniformity_test` for a
chi-squared sub-result. -/
def ChiResult.pvalueD : ChiResult → ℚ
  | .ok _ p _ _ => p
  | .err _ => 0

namespace StatisticalTests

/-- `uniformity_test` of `statistical_tests.py`: runs `ks_test` against
`uniform` with no parameters, builds a histogram with
`min(10, int(sqrt(n)))` bins, runs `chi_squared_test` of the histogram
counts against the constant expected frequencies `n / bins`, and reports
`is_uniform` as the conjunction of both sub-p-values (defaulted to 0
when absent) exceeding 0.05. An empty sample makes `np.histogram` raise
(`bins` would be 0); the surrounding `try` converts that into an error
record. -/
def uniformity_test (sc : Scipy) (data : List ℚ) : UniformityResult :=
  let ksR := ks_test sc data "uniform" none
  let n_bins := min 10 (Nat.sqrt data.length)
  if n_bins = 0 then
    .err "`bins` must be positive, when an integer"
  else
    let hist := (npHistogram data n_bins).map (fun c => (c : ℚ))
    let expected := List.replicate n_bins ((data.length : ℚ) / (n_bins : ℚ))
    let chiR := chi_squared_test sc hist expected
    .ok ksR chiR
      (decide (ksR.pvalueD > 1/20) && decide (chiR.pvalueD > 1/20))

end StatisticalTests

/-- Output record of `chi_squared_test` in the standalone
`chi_squared_test.py`. -/
structure ChiOut where
  statistic : ℚ
  pvalue : ℚ
  significant : Bool
  alpha : ℚ
deriving DecidableEq

/-- Output record of `ks_test` in the standalone `ks_test.py`. -/
structure KsOut where
  statistic : ℚ
  pvalue : ℚ
deriving DecidableEq

/-- Error record the standalone CLI mains print on the error path: the
exception message and the exception's class name. -/
structure ErrorRecord where
  error : String
  type : String
deriving DecidableEq

/-- Outcome of a standalone CLI main: a result printed to stdout with
exit code 0, or an error record printed to stderr with exit code 1. -/
inductive CliOut (α : Type) where
  | ok (result : α)
  | fail (err : ErrorRecord)
deriving DecidableEq

namespace ChiSquaredTestPy

/-- `chi_squared_test` of the standalone `chi_squared_test.py`: raises
(modelled as `Except.error`) when lengths differ or some expected entry
equals zero, otherwise delegates to `stats.chisquare`; `significant` is
`pvalue < alpha`. -/
def chi_squared_test (sc : Scipy) (observed expected : List ℚ)
    (alpha : ℚ) : Except String ChiOut :=
  if observed.length ≠ expected.length then
    .error "Observed and expected must have same length"
  else if expected.any (fun e => decide (e = 0)) then
    .error "Expected frequencies cannot be zero"
  else
    let r := chisquare sc observed expected
    .ok ⟨r.1, r.2, decide (r.2 < alpha), alpha⟩

/-- The `main` of `chi_squared_test.py` after argument parsing: catches
any raised exception and converts it into an error record on stderr
with exit code 1. -/
def main (sc : Scipy) (observed expected : List ℚ) (alpha : ℚ) :
    CliOut ChiOut :=
  match chi_squared_test sc observed expected alpha with
  | .ok r => .ok r
  | .error m => .fail ⟨m, "ValueError"⟩

end ChiSquaredTestPy

namespace KsTestPy

/-- Optional parameters of `ks_test` in the standalone `ks_test.py`. -/
structure KsParams where
  mean : Option ℚ := none
  std : Option ℚ := none
  a : Option ℚ := none
deriving DecidableEq

/-- `ks_test` of the standalone `ks_test.py`: for `normal`, mean and std
default to the sample mean and `np.std`; for `zipf`, the shape `a`
defaults to 1.5; any other name raises (modelled as `Except.error`). -/
def ks_test (sc : Scipy) (data : List ℚ) (distribution : String)
    (params : Option KsParams) : Except String KsOut :=
  let p := params.getD {}
  if distribution = "normal" then
    let mean := p.mean.getD (npMean data)
    let std := p.std.getD (sc.npStd data)
    let r := sc.kstest data "norm" [mean, std]
    .ok ⟨r.1, r.2⟩
  else if distribution = "zipf" then
    let a := p.a.getD (3/2)
    let r := sc.kstest data "zipf" [a]
    .ok ⟨r.1, r.2⟩
  else
    .error ("Unsupported distribution: " ++ distribution)

/-- The `main` of `ks_test.py` after argument parsing: catches any
raised exception and converts it into an error record on stderr with
exit code 1. -/
def main (sc : Scipy) (data : List ℚ) (distribution : String)
    (params : Option KsParams) : CliOut KsOut :=
  match ks_test sc data distribution params with
  | .ok r => .ok r
  | .error m => .fail ⟨m, "ValueError"⟩

end KsTestPy

/-- Model of the `numpy.random` module state and primitives used by the
generators: `np.random.seed`, `np.random.normal(mean, std, n)` and
`np.random.zipf(a, n)`, over an abstract global state type. -/
structure Rng (σ : Type) where
  seed : Int → σ
  normal : ℚ → ℚ → ℕ → σ → List ℚ × σ
  zipf : ℚ → ℕ → σ → List Int × σ

/-- `generate_normal` of `normal_distribution.py`: if a seed is given,
re-seed the process-wide generator first; then validate `std > 0`
(raising, modelled as `Except.error`, otherwise); then draw `n` normal
values. Returns the result together with the final global RNG state. -/
def generate_normal {σ : Type} (r : Rng σ) (n : ℕ) (mean std : ℚ)
    (seed : Option Int) (s : σ) : Except String (List ℚ) × σ :=
  let s1 := match seed with
    | some sd => r.seed sd
    | none => s
  if std ≤ 0 then (.error "Standard deviation must be positive", s1)
  else (.ok (r.normal mean std n s1).1, (r.normal mean std n s1).2)

/-- `generate_zipf` of `zipf_distribution.py`: if a seed is given,
re-seed the process-wide generator first; then draw `n` Zipf values. -/
def generate_zipf {σ : Type} (r : Rng σ) (n : ℕ) (a : ℚ)
    (seed : Option Int) (s : σ) : Except String (List Int) × σ :=
  let s1 := match seed with
    | some sd => r.seed sd
    | none => s
  (.ok (r.zipf a n s1).1, (r.zipf a n s1).2)

/-- The `rejected_at` field of an Anderson-Darling result (`none` on an
error record, which carries no such field). -/
def ADResult.rejected_at : ADResult → Option ℚ
  | .ok _ _ _ r _ _ => r
  | .err _ => none

/-- The `significant` field of an Anderson-Darling result (`false` on an
error record). -/
def ADResult.significant : ADResult → Bool
  | .ok _ _ _ _ s _ => s
  | .err _ => false

/-- Whether a KS result dictionary is an error record
(`success: False`). -/
def KSResult.isErr : KSResult → Bool
  | .ok _ _ _ _ _ => false
  | .err _ => true

/-- Whether a chi-squared result dictionary is an error record. -/
def ChiResult.isErr : ChiResult → Bool
  | .ok _ _ _ _ => false
  | .err _ => true

/-- The `success` field of a uniformity composite result. -/
def UniformityResult.success : UniformityResult → Bool
  | .ok _ _ _ => true
  | .err _ => false

/-- The `is_uniform` field of a uniformity composite result (`false` on
an error record, which carries no such field). -/
def UniformityResult.isUniform : UniformityResult → Bool
  | .ok _ _ b => b
  | .err _ => false

/-- The embedded KS sub-result of a uniformity composite result. -/
def UniformityResult.ksSub : UniformityResult → Option KSResult
  | .ok k _ _ => some k
  | .err _ => none

/-- The embedded chi-squared sub-result of a uniformity composite
result. -/
def UniformityResult.chiSub : UniformityResult → Option ChiResult
  | .ok _ c _ => some c
  | .err _ => none

/-- Spec-side restatement of the Anderson-Darling rejection rule: the
level paired with the last critical value of the longest exceeded
prefix, scanning from most lenient to most strict and stopping at the
first critical value not exceeded; `none` when even the first is not
exceeded. To be compared with the code's scan `adScan`. -/
def strictestLevel (stat : ℚ) (cvs : List ℚ) : Option ℚ :=
  let k := (cvs.takeWhile (fun cv => decide (cv < stat))).length
  if k = 0 then none else StatisticalTests.significance_levels[k - 1]?

instance {ε α : Type} [DecidableEq ε] [DecidableEq α] :
    DecidableEq (Except ε α) := fun a b =>
  match a, b with
  | .ok x, .ok y =>
      if h : x = y then .isTrue (by rw [h]) else
        .isFalse (by intro hc; injection hc; exact h (by assumption))
  | .error x, .error y =>
      if h : x = y then .isTrue (by rw [h]) else
        .isFalse (by intro hc; injection hc; exact h (by assumption))
  | .ok _, .error _ => .isFalse (by intro hc; exact Except.noConfusion hc)
  | .error _, .ok _ => .isFalse (by intro hc; exact Except.noConfusion hc)

/-- A concrete instantiation of the library oracle, used to evaluate
the embedded code on closed inputs: the survival function is constantly
1, every test statistic is 0 with p-value 1, and `stats.anderson`
returns five critical values equal to 1. -/
def scipy0 : Scipy where
  chi2sf := fun _ _ => 1
  kstest := fun _ _ _ => (0, 1)
  anderson := fun _ _ => (0, [1, 1, 1, 1, 1])
  shapiro := fun _ => (1, 1/2)
  npStd := fun _ => 1

/-- A concrete RNG model over integer states, used to evaluate the
generators on closed inputs: seeding stores the seed, drawing
increments the state. -/
def rngId : Rng Int where
  seed := fun i => i
  normal := fun _ _ _ s => ([], s + 1)
  zipf := fun _ _ s => ([], s + 1)

end Datagen


namespace Datagen

/-- The chi-squared statistic of a sequence against itself vanishes
termwise. -/
lemma zip_self_chi_sum (e : List ℚ) :
    ((e.zip e).map (fun p => (p.1 - p.2) ^ 2 / p.2)).sum = 0 := by
  induction e with
  | nil => rfl
  | cons x xs ih => simp [ih]

/-- An errored KS sub-result contributes the default p-value 0 in
`uniformity_test`. -/
lemma ksPvalueD_of_isErr {r : KSResult} (h : r.isErr = true) :
    r.pvalueD = 0 := by
  cases r with
  | ok _ _ _ _ _ => simp [KSResult.isErr] at h
  | err _ => rfl

/-- An errored chi-squared sub-result contributes the default p-value 0
in `uniformity_test`. -/
lemma chiPvalueD_of_isErr {r : ChiResult} (h : r.isErr = true) :
    r.pvalueD = 0 := by
  cases r with
  | ok _ _ _ _ => simp [ChiResult.isErr] at h
  | err _ => rfl

/-- The Anderson-Darling scan over five critical values agrees with the
spec-side `strictestLevel` rule. -/
lemma adScan_eq_strictestLevel (stat a b c d e : ℚ) :
    StatisticalTests.adScan stat [a, b, c, d, e]
      StatisticalTests.significance_levels none =
      strictestLevel stat [a, b, c, d, e] := by
  by_cases h1 : a < stat <;> by_cases h2 : b < stat <;>
    by_cases h3 : c < stat <;> by_cases h4 : d < stat <;>
    by_cases h5 : e < stat <;>
    simp [StatisticalTests.adScan, StatisticalTests.significance_levels,
      strictestLevel, List.takeWhile, h1, h2, h3, h4, h5]

/-- The Anderson-Darling scan over five critical values only ever
returns `None` or one of the five hardcoded significance levels. -/
lemma adScan_mem_levels (stat a b c d e : ℚ) :
    StatisticalTests.adScan stat [a, b, c, d, e]
      StatisticalTests.significance_levels none ∈
      ([none, some 15, some 10, some 5, some (5/2), some 1] :
        List (Option ℚ)) := by
  by_cases h1 : a < stat <;> by_cases h2 : b < stat <;>
    by_cases h3 : c < stat <;> by_cases h4 : d < stat <;>
    by_cases h5 : e < stat <;>
    simp [StatisticalTests.adScan, StatisticalTests.significance_levels,
      h1, h2, h3, h4, h5]

/-- If the Anderson-Darling scan records any level, the statistic
exceeds the first (most lenient, 15%) critical value. -/
lemma adScan_head_of_ne_none (stat a b c d e : ℚ)
    (h : StatisticalTests.adScan stat [a, b, c, d, e]
      StatisticalTests.significance_levels none ≠ none) :
    a < stat := by
  by_contra hc
  exact h (by simp [StatisticalTests.adScan,
    StatisticalTests.significance_levels, hc])

/-- C6: calling a generator with an explicit seed yields an output that
does not depend on the incoming global RNG state: two calls of
`generate_normal` (resp. `generate_zipf`) with the same
`(n, params, seed)` return identical value sequences. -/
theorem seeded_generation_deterministic {σ : Type} (r : Rng σ)
    (n : ℕ) (mean std a : ℚ) (S : Int) (s1 s2 : σ) :
    (generate_normal r n mean std (some S) s1).1 =
      (generate_normal r n mean std (some S) s2).1 ∧
    (generate_zipf r n a (some S) s1).1 =
      (generate_zipf r n a (some S) s2).1 :=
  ⟨rfl, rfl⟩

/-- C10: when `generate_normal` is given an explicit seed together with
`std ≤ 0`, it reseeds the process-wide generator before raising the
validation error, so the failing call leaves the global RNG state at
the reseeded value regardless of what it was before. -/
theorem generate_normal_reseeds_before_validation {σ : Type} (r : Rng σ)
    (n : ℕ) (mean std : ℚ) (S : Int) (s : σ) (h : std ≤ 0) :
    generate_normal r n mean std (some S) s =
      (.error "Standard deviation must be positive", r.seed S) := by
  simp [generate_normal, h]

/-- Witness for C10 at a concrete instance. -/
theorem generate_normal_reseeds_before_validation_witness :
    generate_normal rngId 5 0 0 (some 42) 3 =
      (.error "Standard deviation must be positive", rngId.seed 42) :=
  generate_normal_reseeds_before_validation rngId 5 0 0 42 3 (le_refl 0)

/-- C7: `shapiro_wilk_test` returns a validation error for samples of
size below 3 or above 5000, and for a sample of size exactly 3 returns
the numeric record delegated to `stats.shapiro`, with no error. -/
theorem shapiro_wilk_bounds (sc : Scipy) (data : List ℚ) :
    (data.length < 3 →
      ∃ m, StatisticalTests.shapiro_wilk_test sc data = .err m) ∧
    (5000 < data.length →
      ∃ m, StatisticalTests.shapiro_wilk_test sc data = .err m) ∧
    (data.length = 3 →
      StatisticalTests.shapiro_wilk_test sc data =
        .ok (sc.shapiro data).1 (sc.shapiro data).2
          (decide ((sc.shapiro data).2 < 1/20)) 3) := by
  refine ⟨?_, ?_, ?_⟩
  · intro h
    exact ⟨"Data must have at least 3 values",
      by simp [StatisticalTests.shapiro_wilk_test, h]⟩
  · intro h
    have h3 : ¬ data.length < 3 := by omega
    exact ⟨"Shapiro-Wilk test limited to 5000 samples",
      by simp [StatisticalTests.shapiro_wilk_test, h3, h]⟩
  · intro h
    simp [StatisticalTests.shapiro_wilk_test, h]

/-- Witness for C7 at samples of sizes 2, 5001 and 3. -/
theorem shapiro_wilk_bounds_witness :
    (∃ m, StatisticalTests.shapiro_wilk_test scipy0 [1, 2] = .err m) ∧
    (∃ m, StatisticalTests.shapiro_wilk_test scipy0
      (List.replicate 5001 0) = .err m) ∧
    StatisticalTests.shapiro_wilk_test scipy0 [1, 2, 3] =
      .ok (scipy0.shapiro [1, 2, 3]).1 (scipy0.shapiro [1, 2, 3]).2
        (decide ((scipy0.shapiro [1, 2, 3]).2 < 1/20)) 3 :=
  ⟨(shapiro_wilk_bounds scipy0 [1, 2]).1 (by norm_num),
   (shapiro_wilk_bounds scipy0 (List.replicate 5001 0)).2.1
     (by simp only [List.length_replicate]; omega),
   (shapiro_wilk_bounds scipy0 [1, 2, 3]).2.2 (by norm_num)⟩

/-- C4: for every sample accepted by the Anderson-Darling runner (and
the library contract of five critical values), `rejected_at` is `None`
or one of the five hardcoded levels; it is non-`None` only if the
statistic exceeds the 15% (first, most lenient) critical value;
`significant` holds exactly when `rejected_at` is non-`None`; and
`rejected_at` equals the strictest level reached by scanning the
critical values from most lenient to most strict, stopping at the first
level not exceeded. -/
theorem anderson_rejected_at_spec (sc : Scipy) (data : List ℚ)
    (dist : String) (h2 : 2 ≤ data.length)
    (h5 : (sc.anderson data dist).2.length = 5) :
    ADResult.rejected_at
        (StatisticalTests.anderson_darling_test sc data dist) ∈
      ([none, some 15, some 10, some 5, some (5/2), some 1] :
        List (Option ℚ)) ∧
    (ADResult.rejected_at
        (StatisticalTests.anderson_darling_test sc data dist) ≠ none →
      (sc.anderson data dist).2.headD 0 < (sc.anderson data dist).1) ∧
    ADResult.significant
        (StatisticalTests.anderson_darling_test sc data dist) =
      Option.isSome (ADResult.rejected_at
        (StatisticalTests.anderson_darling_test sc data dist)) ∧
    ADResult.rejected_at
        (StatisticalTests.anderson_darling_test sc data dist) =
      strictestLevel (sc.anderson data dist).1 (sc.anderson data dist).2
    := by
  have hl : ¬ data.length < 2 := by omega
  rcases hsc : sc.anderson data dist with ⟨stat, cvs⟩
  rw [hsc] at h5
  simp only at h5
  rcases cvs with _ | ⟨a, cvs⟩; · simp at h5
  rcases cvs with _ | ⟨b, cvs⟩; · simp at h5
  rcases cvs with _ | ⟨c, cvs⟩; · simp at h5
  rcases cvs with _ | ⟨d, cvs⟩; · simp at h5
  rcases cvs with _ | ⟨e, cvs⟩; · simp at h5
  rcases cvs with _ | ⟨f, cvs⟩
  swap; · simp at h5
  have hres : StatisticalTests.anderson_darling_test sc data dist =
      .ok dist stat [a, b, c, d, e]
        (StatisticalTests.adScan stat [a, b, c, d, e]
          StatisticalTests.significance_levels none)
        (Option.isSome (StatisticalTests.adScan stat [a, b, c, d, e]
          StatisticalTests.significance_levels none))
        data.length := by
    simp [StatisticalTests.anderson_darling_test, hl, hsc]
  rw [hres]
  refine ⟨?_, ?_, ?_, ?_⟩
  · exact adScan_mem_levels stat a b c d e
  · intro hne
    simpa using adScan_head_of_ne_none stat a b c d e
      (by simpa [ADResult.rejected_at] using hne)
  · rfl
  · simpa [ADResult.rejected_at] using adScan_eq_strictestLevel stat a b c d e

/-- Witness for C4 at a concrete sample and oracle. -/
theorem anderson_rejected_at_spec_witness :
    ADResult.rejected_at
        (StatisticalTests.anderson_darling_test scipy0 [0, 1] "norm") ∈
      ([none, some 15, some 10, some 5, some (5/2), some 1] :
        List (Option ℚ)) ∧
    (ADResult.rejected_at
        (StatisticalTests.anderson_darling_test scipy0 [0, 1] "norm") ≠
        none →
      (scipy0.anderson [0, 1] "norm").2.headD 0 <
        (scipy0.anderson [0, 1] "norm").1) ∧
    ADResult.significant
        (StatisticalTests.anderson_darling_test scipy0 [0, 1] "norm") =
      Option.isSome (ADResult.rejected_at
        (StatisticalTests.anderson_darling_test scipy0 [0, 1] "norm")) ∧
    ADResult.rejected_at
        (StatisticalTests.anderson_darling_test scipy0 [0, 1] "norm") =
      strictestLevel (scipy0.anderson [0, 1] "norm").1
        (scipy0.anderson [0, 1] "norm").2 :=
  anderson_rejected_at_spec scipy0 [0, 1] "norm" (by norm_num) rfl

/-- C8: when `ks_test` of `statistical_tests.py` is called with the
parameters omitted, the arguments passed to `stats.kstest` are
estimated from the sample: mean and standard deviation for `norm`,
minimum and range for `uniform`, and mean (with location 0) for
`expon`. -/
theorem ks_params_estimated_from_sample (sc : Scipy) (data : List ℚ)
    (h : 2 ≤ data.length) :
    StatisticalTests.ks_test sc data "norm" none =
      (let r := sc.kstest data "norm" [npMean data, sc.npStd data]
       .ok "norm" r.1 r.2 (decide (r.2 < 1/20)) data.length) ∧
    StatisticalTests.ks_test sc data "uniform" none =
      (let r := sc.kstest data "uniform"
         [listMin data, listMax data - listMin data]
       .ok "uniform" r.1 r.2 (decide (r.2 < 1/20)) data.length) ∧
    StatisticalTests.ks_test sc data "expon" none =
      (let r := sc.kstest data "expon" [0, npMean data]
       .ok "expon" r.1 r.2 (decide (r.2 < 1/20)) data.length) := by
  have hl : ¬ data.length < 2 := by omega
  refine ⟨?_, ?_, ?_⟩ <;> simp [StatisticalTests.ks_test, hl]

/-- Witness for C8 at a concrete sample and oracle. -/
theorem ks_params_estimated_from_sample_witness :
    StatisticalTests.ks_test scipy0 [1, 2] "norm" none =
      (let r := scipy0.kstest [1, 2] "norm"
         [npMean [1, 2], scipy0.npStd [1, 2]]
       .ok "norm" r.1 r.2 (decide (r.2 < 1/20)) (List.length [1, 2])) ∧
    StatisticalTests.ks_test scipy0 [1, 2] "uniform" none =
      (let r := scipy0.kstest [1, 2] "uniform"
         [listMin [1, 2], listMax [1, 2] - listMin [1, 2]]
       .ok "uniform" r.1 r.2 (decide (r.2 < 1/20)) (List.length [1, 2])) ∧
    StatisticalTests.ks_test scipy0 [1, 2] "expon" none =
      (let r := scipy0.kstest [1, 2] "expon" [0, npMean [1, 2]]
       .ok "expon" r.1 r.2 (decide (r.2 < 1/20)) (List.length [1, 2])) :=
  ks_params_estimated_from_sample scipy0 [1, 2] (by norm_num)

/-- C9: for equal observed and expected sequences with all expected
entries positive, both chi-squared runners return statistic 0, and the
p-value is 1 whenever the library survival function satisfies the
mathematical identity `sf 0 dof = 1`. -/
theorem chi_squared_identical_inputs (sc : Scipy) (e : List ℚ) (α : ℚ)
    (hpos : ∀ x ∈ e, 0 < x)
    (hsf : sc.chi2sf 0 ((e.length : Int) - 1) = 1) :
    (∃ sig dof, StatisticalTests.chi_squared_test sc e e =
      .ok 0 1 sig dof) ∧
    (∃ sig, ChiSquaredTestPy.chi_squared_test sc e e α =
      .ok ⟨0, 1, sig, α⟩) := by
  have hany : e.any (fun y => decide (y ≤ 0)) = false := by
    simp only [List.any_eq_false, decide_eq_true_eq]
    intro x hx
    exact not_le.mpr (hpos x hx)
  have hany0 : e.any (fun y => decide (y = 0)) = false := by
    simp only [List.any_eq_false, decide_eq_true_eq]
    intro x hx h0
    exact absurd (hpos x hx) (by rw [h0]; exact lt_irrefl 0)
  constructor
  · refine ⟨decide ((1 : ℚ) < 1/20), (e.length : Int) - 1, ?_⟩
    simp [StatisticalTests.chi_squared_test, hany, chisquare,
      zip_self_chi_sum, hsf]
  · refine ⟨decide ((1 : ℚ) < α), ?_⟩
    simp [ChiSquaredTestPy.chi_squared_test, hany0, chisquare,
      zip_self_chi_sum, hsf]

/-- Witness for C9 at a concrete pair and oracle. -/
theorem chi_squared_identical_inputs_witness :
    (∃ sig dof, StatisticalTests.chi_squared_test scipy0 [1, 2] [1, 2] =
      .ok 0 1 sig dof) ∧
    (∃ sig, ChiSquaredTestPy.chi_squared_test scipy0 [1, 2] [1, 2]
      (1/20) = .ok ⟨0, 1, sig, 1/20⟩) :=
  chi_squared_identical_inputs scipy0 [1, 2] (1/20)
    (by norm_num [List.forall_mem_cons]) rfl

/-- C1 (counterexample): the standalone `chi_squared_test.py` runner
accepts a negative expected entry (its guard only rejects zeroes) and
computes a statistic, refuting the claim that any expected entry `≤ 0`
yields a validation error in every chi-squared runner. -/
theorem chi_squared_negative_expected_ok :
    ((-1 : ℚ) ≤ 0) ∧
    ChiSquaredTestPy.chi_squared_test scipy0 [0, 2] [-1, 3] (1/20) =
      .ok ⟨-2/3, 1, false, 1/20⟩ :=
  ⟨by norm_num,
   by norm_num [ChiSquaredTestPy.chi_squared_test, chisquare, scipy0]⟩

/-- C1 (amended): the `statistical_tests.py` chi-squared runner fails
with a validation error whenever the lengths differ or any expected
entry is `≤ 0`; the standalone `chi_squared_test.py` runner fails with
a validation error whenever the lengths differ or some expected entry
equals zero (so a zero expected entry always yields a validation error
in both, never a statistic), but it does not reject merely negative
entries. -/
theorem chi_squared_validation_errors (sc : Scipy) (o e : List ℚ)
    (α : ℚ) :
    (o.length ≠ e.length ∨ (∃ x ∈ e, x ≤ 0) →
      ∃ m, StatisticalTests.chi_squared_test sc o e = .err m) ∧
    (o.length ≠ e.length ∨ (0 : ℚ) ∈ e →
      ∃ m, ChiSquaredTestPy.chi_squared_test sc o e α = .error m) := by
  constructor
  · intro h
    by_cases hl : o.length = e.length
    · rcases h with h | ⟨x, hx, hx0⟩
      · exact absurd hl h
      · have hany : e.any (fun y => decide (y ≤ 0)) = true := by
          simp only [List.any_eq_true, decide_eq_true_eq]
          exact ⟨x, hx, hx0⟩
        exact ⟨"Expected frequencies must be positive",
          by simp [StatisticalTests.chi_squared_test, hl, hany]⟩
    · exact ⟨"Observed and expected frequencies must have same length",
        by simp [StatisticalTests.chi_squared_test, hl]⟩
  · intro h
    by_cases hl : o.length = e.length
    · rcases h with h | hx
      · exact absurd hl h
      · have hany : e.any (fun y => decide (y = 0)) = true := by
          simp only [List.any_eq_true, decide_eq_true_eq]
          exact ⟨0, hx, rfl⟩
        exact ⟨"Expected frequencies cannot be zero",
          by simp [ChiSquaredTestPy.chi_squared_test, hl, hany]⟩
    · exact ⟨"Observed and expected must have same length",
        by simp [ChiSquaredTestPy.chi_squared_test, hl]⟩

/-- Witness for the amended C1: a length mismatch and a zero expected
entry at concrete inputs. -/
theorem chi_squared_validation_errors_witness :
    (∃ m, StatisticalTests.chi_squared_test scipy0 [1, 2] [1, 0] =
      .err m) ∧
    (∃ m, ChiSquaredTestPy.chi_squared_test scipy0 [1, 2] [1, 0] 1 =
      .error m) :=
  ⟨(chi_squared_validation_errors scipy0 [1, 2] [1, 0] 1).1
     (Or.inr ⟨0, by norm_num, le_refl 0⟩),
   (chi_squared_validation_errors scipy0 [1, 2] [1, 0] 1).2
     (Or.inr (by norm_num))⟩

/-- C2 (counterexample): on the singleton sample `[1]` the KS sub-test
of the uniformity composite fails (fewer than 2 values), yet the
composite is a success record (`success: True`), not a failed result. -/
theorem uniformity_subfailure_success_flag :
    UniformityResult.ksSub (StatisticalTests.uniformity_test scipy0 [1])
      = some (.err "Data must have at least 2 values") ∧
    UniformityResult.success
      (StatisticalTests.uniformity_test scipy0 [1]) = true := by
  have hs : Nat.sqrt 1 = 1 := Nat.sqrt_one
  have h : StatisticalTests.uniformity_test scipy0 [1] =
      .ok (.err "Data must have at least 2 values") (.ok 0 1 false 0)
        false := by
    norm_num [StatisticalTests.uniformity_test, StatisticalTests.ks_test,
      StatisticalTests.chi_squared_test, npHistogram, binCount, listMin,
      listMax, chisquare, KSResult.pvalueD, ChiResult.pvalueD, scipy0,
      hs, List.range_succ, List.filter]
  rw [h]
  exact ⟨rfl, rfl⟩

/-- C2 (amended): for every nonempty sample on which a uniformity
sub-test fails, the composite embeds both sub-results and reports
`is_uniform` false (the missing p-value defaults to 0), but the
composite itself remains a success record rather than a failed one. -/
theorem uniformity_subfailure_embedded (sc : Scipy) (data : List ℚ)
    (h : 1 ≤ data.length)
    (hfail :
      KSResult.isErr (StatisticalTests.ks_test sc data "uniform" none)
        = true ∨
      ChiResult.isErr (StatisticalTests.chi_squared_test sc
        ((npHistogram data (min 10 (Nat.sqrt data.length))).map
          (fun c => (c : ℚ)))
        (List.replicate (min 10 (Nat.sqrt data.length))
          ((data.length : ℚ) /
            ((min 10 (Nat.sqrt data.length) : ℕ) : ℚ)))) = true) :
    StatisticalTests.uniformity_test sc data =
      .ok (StatisticalTests.ks_test sc data "uniform" none)
        (StatisticalTests.chi_squared_test sc
          ((npHistogram data (min 10 (Nat.sqrt data.length))).map
            (fun c => (c : ℚ)))
          (List.replicate (min 10 (Nat.sqrt data.length))
            ((data.length : ℚ) /
              ((min 10 (Nat.sqrt data.length) : ℕ) : ℚ))))
        false := by
  have hb : ¬ (min 10 (Nat.sqrt data.length) = 0) := by
    have hp : 0 < Nat.sqrt data.length := Nat.sqrt_pos.mpr (by omega)
    omega
  have hd : (decide ((1 : ℚ)/20 < 0)) = false := by
    simp only [decide_eq_false_iff_not]
    norm_num
  simp only [StatisticalTests.uniformity_test]
  rw [if_neg hb]
  rcases hfail with hks | hchi
  · rw [ksPvalueD_of_isErr hks, hd]
    rfl
  · rw [chiPvalueD_of_isErr hchi, hd, Bool.and_false]

/-- Witness for the amended C2 on the singleton sample. -/
theorem uniformity_subfailure_embedded_witness :
    StatisticalTests.uniformity_test scipy0 [1] =
      .ok (StatisticalTests.ks_test scipy0 [1] "uniform" none)
        (StatisticalTests.chi_squared_test scipy0
          ((npHistogram [1]
            (min 10 (Nat.sqrt (List.length [(1 : ℚ)])))).map
            (fun c => (c : ℚ)))
          (List.replicate (min 10 (Nat.sqrt (List.length [(1 : ℚ)])))
            ((List.length [(1 : ℚ)] : ℚ) /
              ((min 10 (Nat.sqrt (List.length [(1 : ℚ)])) : ℕ) : ℚ))))
        false :=
  uniformity_subfailure_embedded scipy0 [1] (by norm_num)
    (Or.inl (by norm_num [StatisticalTests.ks_test, KSResult.isErr]))

/-- C3: every runner, faced with malformed input (length mismatch,
too-few samples, unsupported distribution name, sample size out of
bounds), yields a structured error record to its caller: the standalone
utilities catch the raised exception at top level and emit an error
record with exit code 1, and the `statistical_tests.py` runners return
error dictionaries directly. -/
theorem runners_return_structured_errors :
    (∀ (sc : Scipy) (o e : List ℚ) (α : ℚ), o.length ≠ e.length →
      ∃ r, ChiSquaredTestPy.main sc o e α = .fail r) ∧
    (∀ (sc : Scipy) (data : List ℚ) (d : String)
      (p : Option KsTestPy.KsParams), d ≠ "normal" → d ≠ "zipf" →
      ∃ r, KsTestPy.main sc data d p = .fail r) ∧
    (∀ (sc : Scipy) (o e : List ℚ), o.length ≠ e.length →
      ∃ m, StatisticalTests.chi_squared_test sc o e = .err m) ∧
    (∀ (sc : Scipy) (data : List ℚ) (d : String)
      (p : Option StatisticalTests.KsParams), data.length < 2 →
      ∃ m, StatisticalTests.ks_test sc data d p = .err m) ∧
    (∀ (sc : Scipy) (data : List ℚ) (d : String)
      (p : Option StatisticalTests.KsParams),
      d ≠ "norm" → d ≠ "uniform" → d ≠ "expon" →
      ∃ m, StatisticalTests.ks_test sc data d p = .err m) ∧
    (∀ (sc : Scipy) (data : List ℚ) (d : String), data.length < 2 →
      ∃ m, StatisticalTests.anderson_darling_test sc data d = .err m) ∧
    (∀ (sc : Scipy) (data : List ℚ),
      data.length < 3 ∨ 5000 < data.length →
      ∃ m, StatisticalTests.shapiro_wilk_test sc data = .err m) := by
  refine ⟨?_, ?_, ?_, ?_, ?_, ?_, ?_⟩
  · intro sc o e α h
    exact ⟨⟨"Observed and expected must have same length", "ValueError"⟩,
      by simp [ChiSquaredTestPy.main, ChiSquaredTestPy.chi_squared_test,
        h]⟩
  · intro sc data d p h1 h2
    exact ⟨⟨"Unsupported distribution: " ++ d, "ValueError"⟩,
      by simp [KsTestPy.main, KsTestPy.ks_test, h1, h2]⟩
  · intro sc o e h
    exact ⟨"Observed and expected frequencies must have same length",
      by simp [StatisticalTests.chi_squared_test, h]⟩
  · intro sc data d p h
    exact ⟨"Data must have at least 2 values",
      by simp [StatisticalTests.ks_test, h]⟩
  · intro sc data d p h1 h2 h3
    by_cases hl : data.length < 2
    · exact ⟨"Data must have at least 2 values",
        by simp [StatisticalTests.ks_test, hl]⟩
    · exact ⟨"Unsupported distribution: " ++ d,
        by simp [StatisticalTests.ks_test, hl, h1, h2, h3]⟩
  · intro sc data d h
    exact ⟨"Data must have at least 2 values",
      by simp [StatisticalTests.anderson_darling_test, h]⟩
  · intro sc data h
    rcases h with h | h
    · exact ⟨"Data must have at least 3 values",
        by simp [StatisticalTests.shapiro_wilk_test, h]⟩
    · have h3 : ¬ data.length < 3 := by omega
      exact ⟨"Shapiro-Wilk test limited to 5000 samples",
        by simp [StatisticalTests.shapiro_wilk_test, h3, h]⟩

/-- Witness for C3: one concrete malformed input per runner and error
category. -/
theorem runners_return_structured_errors_witness :
    (∃ r, ChiSquaredTestPy.main scipy0 [1] [1, 2] 1 = .fail r) ∧
    (∃ r, KsTestPy.main scipy0 [1, 2] "poisson" none = .fail r) ∧
    (∃ m, StatisticalTests.chi_squared_test scipy0 [1] [1, 2] =
      .err m) ∧
    (∃ m, StatisticalTests.ks_test scipy0 [1] "norm" none = .err m) ∧
    (∃ m, StatisticalTests.ks_test scipy0 [1, 2] "poisson" none =
      .err m) ∧
    (∃ m, StatisticalTests.anderson_darling_test scipy0 [1] "norm" =
      .err m) ∧
    (∃ m, StatisticalTests.shapiro_wilk_test scipy0 [1, 2] = .err m) :=
  ⟨runners_return_structured_errors.1 scipy0 [1] [1, 2] 1 (by norm_num),
   runners_return_structured_errors.2.1 scipy0 [1, 2] "poisson" none
     (by decide) (by decide),
   runners_return_structured_errors.2.2.1 scipy0 [1] [1, 2]
     (by norm_num),
   runners_return_structured_errors.2.2.2.1 scipy0 [1] "norm" none
     (by norm_num),
   runners_return_structured_errors.2.2.2.2.1 scipy0 [1, 2] "poisson"
     none (by decide) (by decide) (by decide),
   runners_return_structured_errors.2.2.2.2.2.1 scipy0 [1] "norm"
     (by norm_num),
   runners_return_structured_errors.2.2.2.2.2.2 scipy0 [1, 2]
     (Or.inl (by norm_num))⟩

/-- C5: for every nonempty sample, the uniformity composite runs the
KS test against the uniform distribution and a chi-squared test of the
sample histogram with `min(10, floor(sqrt(n)))` bins against the equal
expected frequencies `n / bins`, and its `is_uniform` flag is true
exactly when both sub-results report a p-value above 0.05. -/
theorem uniformity_composite_spec (sc : Scipy) (data : List ℚ)
    (h : 1 ≤ data.length) :
    StatisticalTests.uniformity_test sc data =
      .ok (StatisticalTests.ks_test sc data "uniform" none)
        (StatisticalTests.chi_squared_test sc
          ((npHistogram data (min 10 (Nat.sqrt data.length))).map
            (fun c => (c : ℚ)))
          (List.replicate (min 10 (Nat.sqrt data.length))
            ((data.length : ℚ) /
              ((min 10 (Nat.sqrt data.length) : ℕ) : ℚ))))
        (decide (KSResult.pvalueD
            (StatisticalTests.ks_test sc data "uniform" none) > 1/20) &&
         decide (ChiResult.pvalueD
            (StatisticalTests.chi_squared_test sc
              ((npHistogram data (min 10 (Nat.sqrt data.length))).map
                (fun c => (c : ℚ)))
              (List.replicate (min 10 (Nat.sqrt data.length))
                ((data.length : ℚ) /
                  ((min 10 (Nat.sqrt data.length) : ℕ) : ℚ)))) >
            1/20)) ∧
    (UniformityResult.isUniform (StatisticalTests.uniformity_test sc
        data) = true ↔
      KSResult.pvalueD
        (StatisticalTests.ks_test sc data "uniform" none) > 1/20 ∧
      ChiResult.pvalueD
        (StatisticalTests.chi_squared_test sc
          ((npHistogram data (min 10 (Nat.sqrt data.length))).map
            (fun c => (c : ℚ)))
          (List.replicate (min 10 (Nat.sqrt data.length))
            ((data.length : ℚ) /
              ((min 10 (Nat.sqrt data.length) : ℕ) : ℚ)))) > 1/20) := by
  have hb : ¬ (min 10 (Nat.sqrt data.length) = 0) := by
    have hp : 0 < Nat.sqrt data.length := Nat.sqrt_pos.mpr (by omega)
    omega
  constructor
  · simp [StatisticalTests.uniformity_test, hb]
  · simp [StatisticalTests.uniformity_test, hb,
      UniformityResult.isUniform, Bool.and_eq_true, decide_eq_true_eq]

/-- Witness for C5 on a concrete two-element sample. -/
theorem uniformity_composite_spec_witness :
    StatisticalTests.uniformity_test scipy0 [1, 2] =
      .ok (StatisticalTests.ks_test scipy0 [1, 2] "uniform" none)
        (StatisticalTests.chi_squared_test scipy0
          ((npHistogram [1, 2]
            (min 10 (Nat.sqrt (List.length [(1 : ℚ), 2])))).map
            (fun c => (c : ℚ)))
          (List.replicate (min 10 (Nat.sqrt (List.length [(1 : ℚ), 2])))
            ((List.length [(1 : ℚ), 2] : ℚ) /
              ((min 10 (Nat.sqrt (List.length [(1 : ℚ), 2])) : ℕ) :
                ℚ))))
        (decide (KSResult.pvalueD
            (StatisticalTests.ks_test scipy0 [1, 2] "uniform" none) >
            1/20) &&
         decide (ChiResult.pvalueD
            (StatisticalTests.chi_squared_test scipy0
              ((npHistogram [1, 2]
                (min 10 (Nat.sqrt (List.length [(1 : ℚ), 2])))).map
                (fun c => (c : ℚ)))
              (List.replicate
                (min 10 (Nat.sqrt (List.length [(1 : ℚ), 2])))
                ((List.length [(1 : ℚ), 2] : ℚ) /
                  ((min 10 (Nat.sqrt (List.length [(1 : ℚ), 2])) : ℕ) :
                    ℚ)))) > 1/20)) ∧
    (UniformityResult.isUniform
        (StatisticalTests.uniformity_test scipy0 [1, 2]) = true ↔
      KSResult.pvalueD
        (StatisticalTests.ks_test scipy0 [1, 2] "uniform" none) >
        1/20 ∧
      ChiResult.pvalueD
        (StatisticalTests.chi_squared_test scipy0
          ((npHistogram [1, 2]
            (min 10 (Nat.sqrt (List.length [(1 : ℚ), 2])))).map
            (fun c => (c : ℚ)))
          (List.replicate (min 10 (Nat.sqrt (List.length [(1 : ℚ), 2])))
            ((List.length [(1 : ℚ), 2] : ℚ) /
              ((min 10 (Nat.sqrt (List.length [(1 : ℚ), 2])) : ℕ) :
                ℚ)))) > 1/20) :=
  uniformity_composite_spec scipy0 [1, 2] (by norm_num)

end Datagen
